import Mathlib

/-!
# Youtube-AV-Downloader: the client controller of `script.js`

A shallow embedding of the three event handlers of `script.js` (mode change,
"fetch info" click, "download" click) over an explicit record of the page
elements they read and write, followed by the properties of the controller.

Conventions of the embedding:

* the page elements bound at the top of the script are the fields of `Controller`;
* what a handler does to the outside world (an `alert`, a `fetch`, a file handed
  to the browser by clicking a download anchor) is returned as a list of `Effect`s;
* an `async` handler is cut at its `await`s: the part before the request, and
  the part that runs when the request settles, which takes the way the request
  settled as an argument;
* a value produced by `res.json()` is a `JSValue`; an exception is a `Thrown`,
  and `try { .. } catch (err) { .. }` is explicit case analysis on it.
-/

namespace YoutubeAV

/-! ## JavaScript values as far as the script observes them -/

/-- A value as `res.json()` can produce it. Of a number the script can only
observe whether it is zero (truthiness) and its decimal rendering (conversion to
a string), so a number is carried as these two observations. Of an object the
list holds the own properties in source order; a later duplicate wins. -/
inductive JSValue where
  | null : JSValue
  | bool (b : Bool) : JSValue
  | num (isZero : Bool) (text : String) : JSValue
  | str (s : String) : JSValue
  | arr (items : List JSValue) : JSValue
  | obj (fields : List (String × JSValue)) : JSValue

/-- The places of the script at which the language itself raises a `TypeError`. -/
inductive TypeErrorSite where
  /-- Reading a property of `null`: `data.error` with `data` being `null`, or
  `data.resolutions.forEach` with `data.resolutions` being `null`. -/
  | readOfNull (property : String)
  /-- Reading a property of `undefined`: `data.resolutions.forEach` with
  `data.resolutions` missing. -/
  | readOfUndefined (property : String)
  /-- Calling `data.resolutions.forEach(..)` with `forEach` not callable. -/
  | notAFunction (property : String)
  /-- Conversion to a string of an object that shadows `toString`. -/
  | toPrimitive
  deriving DecidableEq, Repr

/-- What a `catch (err)` clause of the script can receive. -/
inductive Thrown where
  /-- An error carrying `message`: `new Error(message)` raised by the script, or
  the reason of a rejected request. -/
  | error (message : String)
  /-- A `TypeError` raised by the language. -/
  | typeError (site : TypeErrorSite)
  deriving DecidableEq, Repr

/-- The text of `err.message`. The wording of a language-raised `TypeError`
differs between engines, so it is supplied by `engine`. -/
def Thrown.message (engine : TypeErrorSite → String) : Thrown → String
  | .error m => m
  | .typeError site => engine site

/-- Own-property lookup in a parsed object: the last field of that name. -/
def lookupField (name : String) : List (String × JSValue) → Option JSValue
  | [] => none
  | (k, v) :: rest =>
    match lookupField name rest with
    | some w => some w
    | none => if k = name then some v else none

/-- The expression `v.name` for `name` one of `error`, `title`, `resolutions`;
`none` is `undefined`. Only `null` refuses a property read; arrays and
primitives have no property of these names. -/
def getProp (v : JSValue) (name : String) : Except Thrown (Option JSValue) :=
  match v with
  | .null => .error (.typeError (.readOfNull name))
  | .obj fields => .ok (lookupField name fields)
  | _ => .ok none

/-- Truthiness of a value as tested by `if (v)`. -/
def truthy : Option JSValue → Bool
  | none => false
  | some .null => false
  | some (.bool b) => b
  | some (.num isZero _) => !isZero
  | some (.str s) => s != ""
  | some (.arr _) => true
  | some (.obj _) => true

mutual
/-- Conversion of a parsed value to a string (`String(v)`, a template
substitution, an assignment to a DOM string attribute). An object shadowing
`toString` with a parsed (hence not callable) value cannot be converted. -/
def JSValue.toStr : JSValue → Except Thrown String
  | .null => .ok "null"
  | .bool b => .ok (if b then "true" else "false")
  | .num _ text => .ok text
  | .str s => .ok s
  | .arr items => joinItems items
  | .obj fields =>
    match lookupField "toString" fields with
    | some _ => .error (.typeError .toPrimitive)
    | none => .ok "[object Object]"
termination_by structural v => v
/-- The rendering of array elements as `Array.prototype.join` does it: the
elements converted in order, `null` rendered empty, a comma in between. -/
def joinItems : List JSValue → Except Thrown String
  | [] => .ok ""
  | x :: rest =>
    match (match x with
      | .null => (.ok "" : Except Thrown String)
      | v => v.toStr) with
    | .error t => .error t
    | .ok a =>
      match rest with
      | [] => .ok a
      | _ :: _ =>
        match joinItems rest with
        | .error t => .error t
        | .ok b => .ok (a ++ "," ++ b)
termination_by structural items => items
end

/-- Conversion of a possibly `undefined` value inside a template literal. -/
def templateText : Option JSValue → Except Thrown String
  | none => .ok "undefined"
  | some v => v.toStr

/-- The message of `new Error(v)`: empty for `undefined`, the conversion of `v` otherwise. -/
def errorMessage : Option JSValue → Except Thrown String
  | none => .ok ""
  | some v => v.toStr

/-- White space and line terminators, the characters `String.prototype.trim` strips. -/
def isWhiteSpace (c : Char) : Bool :=
  let n := c.toNat
  n == 0x09 || n == 0x0A || n == 0x0B || n == 0x0C || n == 0x0D || n == 0x20 ||
  n == 0xA0 || n == 0x1680 || (0x2000 ≤ n && n ≤ 0x200A) || n == 0x2028 ||
  n == 0x2029 || n == 0x202F || n == 0x205F || n == 0x3000 || n == 0xFEFF

/-- The method `String.prototype.trim`. -/
def trim (s : String) : String :=
  ⟨((s.data.dropWhile isWhiteSpace).reverse.dropWhile isWhiteSpace).reverse⟩

/-! ## The page -/

/-- An `option` element of the resolution selector. -/
structure ResolutionOption where
  value : String
  textContent : String
  deriving DecidableEq, Repr

/-- The page elements the script binds, reduced to what the script reads or writes. -/
structure Controller where
  /-- The text of the `url` input, `urlInput.value`. -/
  urlInput : String
  /-- The chosen mode, `modeSelect.value`. -/
  modeSelect : String
  /-- Whether `resolutionContainer.classList` holds `hidden`. -/
  resolutionHidden : Bool
  /-- The `option` children of `resolutionSelect`, in document order. -/
  resolutionOptions : List ResolutionOption
  /-- The index of the selected option of `resolutionSelect`. -/
  resolutionSelected : Nat
  /-- The flag `downloadBtn.disabled`. -/
  downloadDisabled : Bool
  /-- The text `statusText.textContent`. -/
  statusText : String
  deriving DecidableEq, Repr

/-- The value `resolutionSelect.value`: the value of the selected option, empty when there is none. -/
def Controller.resolutionValue (s : Controller) : String :=
  match s.resolutionOptions.get? s.resolutionSelected with
  | some o => o.value
  | none => ""

/-- The bytes of a response body. -/
abbrev Bytes := List UInt8

/-- What a handler does to the world outside the page. -/
inductive Effect where
  /-- A blocking `alert(message)`. -/
  | alert (message : String)
  /-- A `fetch(address, {method: "POST", ..})` whose JSON body has the given members. -/
  | post (address : String) (body : List (String × String))
  /-- A file handed to the browser: a click on an anchor with the `download`
  attribute `filename` whose `href` is an object URL of a blob with this content. -/
  | save (filename : String) (content : Bytes)
  deriving DecidableEq, Repr

/-- The constant `API_BASE`. -/
def API_BASE : String := "https://your-backend.onrender.com"

/-! ## The handlers -/

/-- The `change` handler of `modeSelect`, run after the selector took `value`. -/
def modeChange (s : Controller) (value : String) : Controller :=
  let s := { s with modeSelect := value }
  if s.modeSelect = "resolution" then { s with resolutionHidden := false }
  else { s with resolutionHidden := true }

/-- How the request of the fetch-info handler settles. The handler does not look
at the HTTP status, only at the parsed body. -/
inductive InfoOutcome where
  /-- The promise of `fetch` rejects, with an error of this message. -/
  | fetchRejected (message : String)
  /-- The promise of `res.json()` rejects, with an error of this message. -/
  | jsonRejected (message : String)
  /-- The body parses to `data`. -/
  | json (data : JSValue)

/-- The callback of `data.resolutions.forEach`, run over the elements in order:
each element becomes an option appended to the selector; a failing conversion
ends the loop with the options appended so far. -/
def populate (s : Controller) : List JSValue → Controller × Option Thrown
  | [] => (s, none)
  | r :: rest =>
    match r.toStr with
    | .error t => (s, some t)
    | .ok v =>
      populate { s with resolutionOptions := s.resolutionOptions ++ [⟨v, v ++ "p"⟩] } rest

/-- The statement `data.resolutions.forEach(..)`. -/
def forEachResolution (s : Controller) : Option JSValue → Controller × Option Thrown
  | none => (s, some (.typeError (.readOfUndefined "forEach")))
  | some .null => (s, some (.typeError (.readOfNull "forEach")))
  | some (.arr items) => populate s items
  | some _ => (s, some (.typeError (.notAFunction "forEach")))

/-- The `try` block of the fetch-info handler from `data` on (lines 33 to 46):
the page it leaves, and the exception that ended it early, if any. -/
def infoTry (s : Controller) (data : JSValue) : Controller × Option Thrown :=
  match getProp data "error" with
  | .error t => (s, some t)
  | .ok error =>
    if truthy error then
      match errorMessage error with
      | .error t => (s, some t)
      | .ok m => (s, some (.error m))
    else
      match getProp data "title" with
      | .error t => (s, some t)
      | .ok title =>
        match templateText title with
        | .error t => (s, some t)
        | .ok text =>
          let s := { s with statusText := "Title: " ++ text }
          let s := { s with resolutionOptions := [], resolutionSelected := 0 }
          match getProp data "resolutions" with
          | .error t => (s, some t)
          | .ok resolutions =>
            match forEachResolution s resolutions with
            | (s, some t) => (s, some t)
            | (s, none) => ({ s with downloadDisabled := false }, none)

/-- The `catch` clause of the fetch-info handler. -/
def infoCatch (engine : TypeErrorSite → String) (s : Controller) (err : Thrown) : Controller :=
  { s with statusText := "Error: " ++ err.message engine, downloadDisabled := true }

/-- The `try` block of the fetch-info handler once its request has settled. -/
def infoTrySettled (s : Controller) : InfoOutcome → Controller × Option Thrown
  | .fetchRejected m => (s, some (.error m))
  | .jsonRejected m => (s, some (.error m))
  | .json data => infoTry s data

/-- The fetch-info handler from the moment its request settles. -/
def infoSettled (engine : TypeErrorSite → String) (s : Controller) (o : InfoOutcome) : Controller :=
  match infoTrySettled s o with
  | (s, some err) => infoCatch engine s err
  | (s, none) => s

/-- The fetch-info `click` handler up to its first `await`: the page it leaves,
its effects, and whether a request is now in flight. -/
def fetchClick (s : Controller) : Controller × List Effect × Bool :=
  let url := trim s.urlInput
  if url = "" then (s, [.alert "Please enter a YouTube URL"], false)
  else
    ({ s with statusText := "Fetching video info..." },
      [.post (API_BASE ++ "/info") [("url", url)]], true)

/-- The operation FetchInfo run to completion with nothing in between: the
click, then the request settling as `o`. -/
def fetchInfo (engine : TypeErrorSite → String) (s : Controller) (o : InfoOutcome) :
    Controller × List Effect :=
  match fetchClick s with
  | (s, effects, true) => (infoSettled engine s o, effects)
  | (s, effects, false) => (s, effects)

/-- The response of the download request as the handler observes it. -/
structure DownloadResponse where
  /-- The HTTP status code. -/
  status : Nat
  /-- What `res.blob()` settles to: the body, or the message of the error it rejects with. -/
  blob : Except String Bytes

/-- The flag `res.ok`: the status is in the range 200 to 299. -/
def DownloadResponse.ok (r : DownloadResponse) : Bool :=
  200 ≤ r.status && r.status ≤ 299

/-- How the request of the download handler settles. -/
inductive DownloadOutcome where
  /-- The promise of `fetch` rejects, with an error of this message. -/
  | fetchRejected (message : String)
  /-- The promise of `fetch` resolves to a response. -/
  | response (r : DownloadResponse)

/-- The download `click` handler up to its first `await`. -/
def downloadClick (s : Controller) : Controller × List Effect :=
  let url := trim s.urlInput
  let mode := s.modeSelect
  let height := s.resolutionValue
  ({ s with statusText := "Downloading..." },
    [.post (API_BASE ++ "/download") [("url", url), ("mode", mode), ("height", height)]])

/-- The `try` block of the download handler once its request has settled. -/
def downloadTrySettled (s : Controller) : DownloadOutcome → Controller × List Effect × Option Thrown
  | .fetchRejected m => (s, [], some (.error m))
  | .response r =>
    if !r.ok then (s, [], some (.error "Download failed"))
    else
      match r.blob with
      | .error m => (s, [], some (.error m))
      | .ok content =>
        ({ s with statusText := "\u00e2\u0153\u2026 Download complete!" },
          [.save "video" content], none)

/-- The `catch` clause of the download handler. -/
def downloadCatch (engine : TypeErrorSite → String) (s : Controller) (err : Thrown) : Controller :=
  { s with statusText := "Error: " ++ err.message engine }

/-- The download handler from the moment its request settles. -/
def downloadSettled (engine : TypeErrorSite → String) (s : Controller) (o : DownloadOutcome) :
    Controller × List Effect :=
  match downloadTrySettled s o with
  | (s, effects, some err) => (downloadCatch engine s err, effects)
  | (s, effects, none) => (s, effects)

/-- The operation Download run to completion with nothing in between: the
click, then the request settling as `o`. -/
def download (engine : TypeErrorSite → String) (s : Controller) (o : DownloadOutcome) :
    Controller × List Effect :=
  match downloadClick s with
  | (s, requested) =>
    match downloadSettled engine s o with
    | (s, saved) => (s, requested ++ saved)

/-! ## A session: handlers interleaved by the event loop -/

/-- The stages of a session that the handlers pass through. -/
inductive Stage where
  /-- The fetch-info handler has sent its request. -/
  | infoRequested
  /-- The fetch-info handler has run its `try` block to the end. -/
  | infoReady
  /-- The fetch-info handler has ended in its `catch` clause. -/
  | infoFailed
  /-- The download handler has sent its request. -/
  | downloadRequested
  /-- The download handler has run its `try` block to the end. -/
  | downloadComplete
  /-- The download handler has ended in its `catch` clause. -/
  | downloadFailed
  deriving DecidableEq, Repr

/-- What the event loop can deliver to the page. -/
inductive Event where
  /-- The user edits the URL field. -/
  | urlTyped (text : String)
  /-- The user picks a mode; the `change` handler runs. -/
  | modeChosen (value : String)
  /-- The user picks the option of this index in the resolution selector. -/
  | resolutionChosen (index : Nat)
  /-- The user clicks the fetch-info button. -/
  | fetchClicked
  /-- A pending fetch-info request settles. -/
  | infoSettles (o : InfoOutcome)
  /-- A click on the download button is delivered to its handler. -/
  | downloadClicked
  /-- A pending download request settles. -/
  | downloadSettles (o : DownloadOutcome)

/-- A session: the page, the requests in flight, and the record of what has
happened so far, oldest first. -/
structure Session where
  page : Controller
  infoInFlight : Nat
  downloadInFlight : Nat
  effects : List Effect
  stages : List Stage

/-- The session at page load. -/
def Session.start (page : Controller) : Session :=
  { page := page, infoInFlight := 0, downloadInFlight := 0, effects := [], stages := [] }

/-- One turn of the event loop. An event that cannot occur in the current
state (a choice of a missing option, a settlement without a pending request)
leaves the session as it is. The download handler itself tests nothing: it runs
on every click that is delivered to it. -/
def step (engine : TypeErrorSite → String) (x : Session) : Event → Session
  | .urlTyped text => { x with page := { x.page with urlInput := text } }
  | .modeChosen value => { x with page := modeChange x.page value }
  | .resolutionChosen index =>
    if index < x.page.resolutionOptions.length then
      { x with page := { x.page with resolutionSelected := index } }
    else x
  | .fetchClicked =>
    match fetchClick x.page with
    | (page, effects, true) =>
      { x with page := page, effects := x.effects ++ effects,
               infoInFlight := x.infoInFlight + 1, stages := x.stages ++ [.infoRequested] }
    | (page, effects, false) => { x with page := page, effects := x.effects ++ effects }
  | .infoSettles o =>
    if x.infoInFlight = 0 then x
    else
      { x with page := infoSettled engine x.page o, infoInFlight := x.infoInFlight - 1,
               stages := x.stages ++
                 [if (infoTrySettled x.page o).2.isSome then .infoFailed else .infoReady] }
  | .downloadClicked =>
    match downloadClick x.page with
    | (page, effects) =>
      { x with page := page, effects := x.effects ++ effects,
               downloadInFlight := x.downloadInFlight + 1,
               stages := x.stages ++ [.downloadRequested] }
  | .downloadSettles o =>
    if x.downloadInFlight = 0 then x
    else
      match downloadSettled engine x.page o with
      | (page, effects) =>
        { x with page := page, effects := x.effects ++ effects,
                 downloadInFlight := x.downloadInFlight - 1,
                 stages := x.stages ++
                   [if (downloadTrySettled x.page o).2.2.isSome then .downloadFailed
                    else .downloadComplete] }

/-- The session after a sequence of events. -/
def run (engine : TypeErrorSite → String) (x : Session) (events : List Event) : Session :=
  events.foldl (step engine) x

/-- Whether the event is a click on the download button. -/
def Event.isDownloadClick : Event → Bool
  | .downloadClicked => true
  | _ => false

/-- Whether, along the run of `events` from `x`, every click on the download
button arrives while the button is enabled. This is what the browser grants for
a button it handles: while `disabled` is set, it delivers no click. -/
def clicksWhileEnabled (engine : TypeErrorSite → String) : Session → List Event → Bool
  | _, [] => true
  | x, e :: rest =>
    (!e.isDownloadClick || !x.page.downloadDisabled) &&
      clicksWhileEnabled engine (step engine x e) rest

/-- The gating invariant of a session: the download button is enabled only
after a fetch-info handler ran to the end of its `try` block; every download
handler that has started was preceded by such a run; and a download request has
been sent only after such a run. -/
def Gated (x : Session) : Prop :=
  (x.page.downloadDisabled = false → Stage.infoReady ∈ x.stages) ∧
  (∀ pre post, x.stages = pre ++ Stage.downloadRequested :: post → Stage.infoReady ∈ pre) ∧
  (∀ body, Effect.post (API_BASE ++ "/download") body ∈ x.effects → Stage.infoReady ∈ x.stages)

/-! ## Sample data -/

/-- An engine wording of the language-raised errors, in the style of V8. -/
def sampleEngine : TypeErrorSite → String
  | .readOfNull p => "Cannot read properties of null (reading " ++ p ++ ")"
  | .readOfUndefined p => "Cannot read properties of undefined (reading " ++ p ++ ")"
  | .notAFunction p => "data.resolutions." ++ p ++ " is not a function"
  | .toPrimitive => "Cannot convert object to primitive value"

/-- A sample page at load, with the download button disabled: nothing typed, no options. -/
def freshPage : Controller :=
  { urlInput := "", modeSelect := "resolution", resolutionHidden := false,
    resolutionOptions := [], resolutionSelected := 0, downloadDisabled := true,
    statusText := "" }

/-- A page after an earlier successful fetch: a URL typed, two options, download enabled. -/
def readyPage : Controller :=
  { urlInput := " https://youtube.com/watch?v=abc ", modeSelect := "resolution",
    resolutionHidden := false,
    resolutionOptions := [⟨"144", "144p"⟩, ⟨"240", "240p"⟩], resolutionSelected := 1,
    downloadDisabled := false, statusText := "Title: Earlier" }

/-- The successful metadata response of the specification example. -/
def sampleInfo : JSValue :=
  .obj [("title", .str "Sample"), ("resolutions", .arr [.str "360", .str "720", .str "1080"])]

/-- A session in which the user fetches the metadata, picks the second option
and downloads. -/
def sampleEvents : List Event :=
  [.urlTyped "https://youtube.com/watch?v=abc", .fetchClicked,
   .infoSettles (.json sampleInfo), .resolutionChosen 1, .downloadClicked,
   .downloadSettles (.response ⟨200, .ok [0, 255, 7]⟩)]

/-! ## Auxiliary facts -/

theorem trim_eq_empty_of_blank (s : String) (h : ∀ c ∈ s.data, isWhiteSpace c = true) :
    trim s = "" := by
  have h1 : s.data.dropWhile isWhiteSpace = [] := by
    rw [List.dropWhile_eq_nil_iff]; exact h
  simp [trim, h1]

/-- Options rendered from string identifiers: every element is appended, none fails. -/
theorem populate_strings (rs : List String) (s : Controller) :
    populate s (rs.map JSValue.str) =
      ({ s with resolutionOptions :=
          s.resolutionOptions ++ rs.map (fun r => (⟨r, r ++ "p"⟩ : ResolutionOption)) }, none) := by
  induction rs generalizing s with
  | nil => simp [populate]
  | cons r rest ih => simp [populate, JSValue.toStr, ih]

/-- With a URL in the field the click sends the metadata request. -/
theorem fetchInfo_of_url (engine : TypeErrorSite → String) (s : Controller) (o : InfoOutcome)
    (hurl : trim s.urlInput ≠ "") :
    fetchInfo engine s o =
      (infoSettled engine { s with statusText := "Fetching video info..." } o,
        [Effect.post (API_BASE ++ "/info") [("url", trim s.urlInput)]]) := by
  simp [fetchInfo, fetchClick, hurl]

/-- The loop over the resolutions depends on the page only through the options
it appends to: from two pages it ends the same way and appends the same options. -/
theorem populate_frame (items : List JSValue) (s s' : Controller) :
    (populate s items).2 = (populate s' items).2 ∧
    ∃ added : List ResolutionOption,
      (populate s items).1 = { s with resolutionOptions := s.resolutionOptions ++ added } ∧
      (populate s' items).1 = { s' with resolutionOptions := s'.resolutionOptions ++ added } := by
  induction items generalizing s s' with
  | nil => exact ⟨rfl, [], by simp [populate], by simp [populate]⟩
  | cons r rest ih =>
    cases hr : r.toStr with
    | error t => exact ⟨by simp [populate, hr], [], by simp [populate, hr], by simp [populate, hr]⟩
    | ok v =>
      obtain ⟨h2, added, h1, h1'⟩ :=
        ih { s with resolutionOptions := s.resolutionOptions ++ [⟨v, v ++ "p"⟩] }
          { s' with resolutionOptions := s'.resolutionOptions ++ [⟨v, v ++ "p"⟩] }
      refine ⟨by simp [populate, hr, h2], ⟨v, v ++ "p"⟩ :: added, ?_, ?_⟩
      · simp [populate, hr, h1]
      · simp [populate, hr, h1']

/-- The statement over `data.resolutions` depends on the page in the same way. -/
theorem forEachResolution_frame (r : Option JSValue) (s s' : Controller) :
    (forEachResolution s r).2 = (forEachResolution s' r).2 ∧
    ∃ added : List ResolutionOption,
      (forEachResolution s r).1 =
        { s with resolutionOptions := s.resolutionOptions ++ added } ∧
      (forEachResolution s' r).1 =
        { s' with resolutionOptions := s'.resolutionOptions ++ added } := by
  rcases r with _ | v
  · exact ⟨rfl, [], by simp [forEachResolution], by simp [forEachResolution]⟩
  · cases v with
    | arr items => simpa [forEachResolution] using populate_frame items s s'
    | _ => exact ⟨rfl, [], by simp [forEachResolution], by simp [forEachResolution]⟩

/-- The settled fetch-info handler, run from two pages on the same outcome:
the status text it leaves is the same, and the options it leaves are either
in both cases those it found, or in both cases the same list. It never touches
the URL field. -/
theorem infoSettled_frame (engine : TypeErrorSite → String) (o : InfoOutcome)
    (s s' : Controller) :
    (infoSettled engine s o).statusText = (infoSettled engine s' o).statusText ∧
    (((infoSettled engine s o).resolutionOptions = s.resolutionOptions ∧
        (infoSettled engine s' o).resolutionOptions = s'.resolutionOptions) ∨
      (infoSettled engine s o).resolutionOptions =
        (infoSettled engine s' o).resolutionOptions) ∧
    (infoSettled engine s o).urlInput = s.urlInput := by
  cases o with
  | fetchRejected m => simp [infoSettled, infoTrySettled, infoCatch]
  | jsonRejected m => simp [infoSettled, infoTrySettled, infoCatch]
  | json data =>
    simp only [infoSettled, infoTrySettled, infoTry]
    cases getProp data "error" with
    | error t => simp [infoCatch]
    | ok e =>
      by_cases ht : truthy e = true
      · simp only [ht, if_true]
        cases errorMessage e <;> simp [infoCatch]
      · simp only [ht, Bool.false_eq_true, if_false]
        cases getProp data "title" with
        | error t => simp [infoCatch]
        | ok title =>
          dsimp only
          cases templateText title with
          | error t => simp [infoCatch]
          | ok text =>
            dsimp only
            cases getProp data "resolutions" with
            | error t => simp [infoCatch]
            | ok r =>
              dsimp only
              obtain ⟨h2, added, h1, h1'⟩ := forEachResolution_frame r
                { s with statusText := "Title: " ++ text, resolutionOptions := [],
                         resolutionSelected := 0 }
                { s' with statusText := "Title: " ++ text, resolutionOptions := [],
                          resolutionSelected := 0 }
              rcases hf : forEachResolution
                { s with statusText := "Title: " ++ text, resolutionOptions := [],
                         resolutionSelected := 0 } r with ⟨p, thrown⟩
              rcases hf' : forEachResolution
                { s' with statusText := "Title: " ++ text, resolutionOptions := [],
                          resolutionSelected := 0 } r with ⟨p', thrown'⟩
              rw [hf] at h1 h2
              rw [hf'] at h1' h2
              simp only at h1 h1' h2
              subst h1 h1' h2
              cases thrown <;> simp [infoCatch]

/-- Recording one more stage keeps the order of download requests after metadata. -/
theorem ordered_concat (l : List Stage) (a : Stage)
    (hl : ∀ pre post, l = pre ++ Stage.downloadRequested :: post → Stage.infoReady ∈ pre)
    (ha : a = Stage.downloadRequested → Stage.infoReady ∈ l) :
    ∀ pre post, l ++ [a] = pre ++ Stage.downloadRequested :: post → Stage.infoReady ∈ pre := by
  intro pre post h
  rcases List.eq_nil_or_concat post with rfl | ⟨post', b, rfl⟩
  · obtain ⟨h1, h2⟩ := List.append_inj' h rfl
    subst h1
    exact ha (by simpa using h2)
  · have h' : l ++ [a] = (pre ++ Stage.downloadRequested :: post') ++ [b] := by
      simpa using h
    obtain ⟨h1, _⟩ := List.append_inj' h' rfl
    exact hl pre post' h1

/-- The settled fetch-info handler leaves the download button enabled only when
its `try` block ran to the end. -/
theorem infoSettled_enabled (engine : TypeErrorSite → String) (s : Controller) (o : InfoOutcome)
    (h : (infoSettled engine s o).downloadDisabled = false) :
    (infoTrySettled s o).2.isSome = false := by
  unfold infoSettled at h
  rcases hq : infoTrySettled s o with ⟨p, thrown⟩
  rw [hq] at h
  cases thrown with
  | none => rfl
  | some t => simp [infoCatch] at h

/-- The settled download handler does not touch the download button. -/
theorem downloadSettled_disabled (engine : TypeErrorSite → String) (s : Controller)
    (o : DownloadOutcome) :
    (downloadSettled engine s o).1.downloadDisabled = s.downloadDisabled := by
  cases o with
  | fetchRejected m => simp [downloadSettled, downloadTrySettled, downloadCatch]
  | response r =>
    by_cases hok : r.ok = true
    · cases hb : r.blob <;> simp [downloadSettled, downloadTrySettled, downloadCatch, hok, hb]
    · simp [downloadSettled, downloadTrySettled, downloadCatch, hok]

/-- The settled download handler sends no request. -/
theorem downloadSettled_effects (engine : TypeErrorSite → String) (s : Controller)
    (o : DownloadOutcome) (address : String) (body : List (String × String)) :
    Effect.post address body ∉ (downloadSettled engine s o).2 := by
  cases o with
  | fetchRejected m => simp [downloadSettled, downloadTrySettled]
  | response r =>
    by_cases hok : r.ok = true
    · cases hb : r.blob <;> simp [downloadSettled, downloadTrySettled, hok, hb]
    · simp [downloadSettled, downloadTrySettled, hok]

/-- The fetch-info click sends no download request and leaves the download button as it is. -/
theorem fetchClick_frame (s : Controller) :
    (fetchClick s).1.downloadDisabled = s.downloadDisabled ∧
    ∀ body, Effect.post (API_BASE ++ "/download") body ∉ (fetchClick s).2.1 := by
  have hne : ¬ (API_BASE ++ "/download" = API_BASE ++ "/info") := by decide
  by_cases hurl : trim s.urlInput = ""
  · simp [fetchClick, hurl]
  · simp [fetchClick, hurl, hne]

/-- Every turn of the event loop keeps the gating invariant, provided a click on
the download button arrives only while the button is enabled. -/
theorem step_gated (engine : TypeErrorSite → String) (x : Session) (e : Event)
    (hx : Gated x) (he : e.isDownloadClick = true → x.page.downloadDisabled = false) :
    Gated (step engine x e) := by
  obtain ⟨h1, h2, h3⟩ := hx
  cases e with
  | urlTyped text => exact ⟨h1, h2, h3⟩
  | modeChosen value =>
    refine ⟨fun h => h1 ?_, h2, h3⟩
    simp only [step, modeChange] at h
    split at h <;> exact h
  | resolutionChosen index =>
    simp only [step]
    split
    · exact ⟨h1, h2, h3⟩
    · exact ⟨h1, h2, h3⟩
  | fetchClicked =>
    obtain ⟨hd, he⟩ := fetchClick_frame x.page
    simp only [step]
    rcases hq : fetchClick x.page with ⟨page, effects, sent⟩
    rw [hq] at hd he
    simp only at hd he
    cases sent with
    | true =>
      refine ⟨fun h => ?_, ?_, fun body hb => ?_⟩
      · exact List.mem_append_left _ (h1 (hd ▸ h))
      · exact ordered_concat _ _ h2 (fun h => by cases h)
      · rcases List.mem_append.1 hb with hb | hb
        · exact List.mem_append_left _ (h3 body hb)
        · exact absurd hb (he body)
    | false =>
      refine ⟨fun h => h1 (hd ▸ h), h2, fun body hb => ?_⟩
      rcases List.mem_append.1 hb with hb | hb
      · exact h3 body hb
      · exact absurd hb (he body)
  | infoSettles o =>
    simp only [step]
    split
    · exact ⟨h1, h2, h3⟩
    · refine ⟨fun h => ?_, ?_, fun body hb => ?_⟩
      · have hok := infoSettled_enabled engine x.page o h
        simp [hok]
      · refine ordered_concat _ _ h2 (fun h => ?_)
        split at h <;> cases h
      · exact List.mem_append_left _ (h3 body hb)
  | downloadClicked =>
    have hready := h1 (he rfl)
    simp only [step, downloadClick]
    refine ⟨fun _ => List.mem_append_left _ hready, ?_, fun _ _ => ?_⟩
    · exact ordered_concat _ _ h2 (fun _ => hready)
    · exact List.mem_append_left _ hready
  | downloadSettles o =>
    have hd := downloadSettled_disabled engine x.page o
    have he := downloadSettled_effects engine x.page o
    simp only [step]
    split
    · exact ⟨h1, h2, h3⟩
    · rcases hq : downloadSettled engine x.page o with ⟨page, effects⟩
      rw [hq] at hd he
      simp only at hd he
      refine ⟨fun h => ?_, ?_, fun body hb => ?_⟩
      · exact List.mem_append_left _ (h1 (hd ▸ h))
      · refine ordered_concat _ _ h2 (fun h => ?_)
        split at h <;> cases h
      · rcases List.mem_append.1 hb with hb | hb
        · exact List.mem_append_left _ (h3 body hb)
        · exact absurd hb (he _ body)

/-- A run of the event loop keeps the gating invariant, provided every click on
the download button arrives while the button is enabled. -/
theorem run_gated (engine : TypeErrorSite → String) (events : List Event) (x : Session)
    (hx : Gated x) (hclicks : clicksWhileEnabled engine x events = true) :
    Gated (run engine x events) := by
  induction events generalizing x with
  | nil => exact hx
  | cons e rest ih =>
    simp only [clicksWhileEnabled, Bool.and_eq_true, Bool.or_eq_true, Bool.not_eq_true'] at hclicks
    obtain ⟨hc, hrest⟩ := hclicks
    refine ih (step engine x e) (step_gated engine x e hx (fun h => ?_)) hrest
    rcases hc with hc | hc
    · rw [h] at hc; cases hc
    · exact hc

/-! ## Properties -/

/-- C1: when the URL field is empty or holds only white space, the fetch-info
click sends no request: its only effect is the input-validation alert, nothing
is left in flight, and the page is exactly as before the click. -/
theorem fetchInfo_blank_url (engine : TypeErrorSite → String) (s : Controller) (o : InfoOutcome)
    (h : ∀ c ∈ s.urlInput.data, isWhiteSpace c = true) :
    trim s.urlInput = "" ∧
    fetchClick s = (s, [Effect.alert "Please enter a YouTube URL"], false) ∧
    fetchInfo engine s o = (s, [Effect.alert "Please enter a YouTube URL"]) := by
  have ht := trim_eq_empty_of_blank s.urlInput h
  simp [fetchInfo, fetchClick, ht]

theorem fetchInfo_blank_url_witness :
    (∀ c ∈ ({ readyPage with urlInput := " \t\n" } : Controller).urlInput.data,
      isWhiteSpace c = true) ∧
    fetchInfo sampleEngine { readyPage with urlInput := " \t\n" } (.json sampleInfo) =
      ({ readyPage with urlInput := " \t\n" }, [Effect.alert "Please enter a YouTube URL"]) :=
  ⟨by decide, (fetchInfo_blank_url sampleEngine { readyPage with urlInput := " \t\n" }
    (.json sampleInfo) (by decide)).2.2⟩

/-- C2: with a URL in the field and a metadata response without an `error`
field whose `resolutions` is the sequence `rs` of identifiers, after FetchInfo
the options of the selector are, in order, one per identifier `r`, with value
`r` and label `r` followed by `p`. -/
theorem fetchInfo_options (engine : TypeErrorSite → String) (s : Controller)
    (fields : List (String × JSValue)) (title : String) (rs : List String)
    (hurl : trim s.urlInput ≠ "")
    (herr : lookupField "error" fields = none)
    (htitle : templateText (lookupField "title" fields) = .ok title)
    (hres : lookupField "resolutions" fields = some (.arr (rs.map JSValue.str))) :
    (fetchInfo engine s (.json (.obj fields))).1.resolutionOptions =
      rs.map (fun r => (⟨r, r ++ "p"⟩ : ResolutionOption)) := by
  rw [fetchInfo_of_url engine s _ hurl]
  simp [infoSettled, infoTrySettled, infoTry, getProp, herr, truthy, htitle, hres,
    forEachResolution, populate_strings]

theorem fetchInfo_options_witness :
    (fetchInfo sampleEngine readyPage (.json sampleInfo)).1.resolutionOptions =
      [⟨"360", "360p"⟩, ⟨"720", "720p"⟩, ⟨"1080", "1080p"⟩] :=
  fetchInfo_options sampleEngine readyPage
    [("title", .str "Sample"), ("resolutions", .arr [.str "360", .str "720", .str "1080"])]
    "Sample" ["360", "720", "1080"] (by decide) rfl rfl rfl

/-- C8: with a URL in the field and a successful metadata response (no `error`
field) with title `title` and a `resolutions` sequence, after FetchInfo the
status text is `Title: ` followed by the title and the download button is enabled. -/
theorem fetchInfo_success (engine : TypeErrorSite → String) (s : Controller)
    (fields : List (String × JSValue)) (title : String) (rs : List String)
    (hurl : trim s.urlInput ≠ "")
    (herr : lookupField "error" fields = none)
    (htitle : lookupField "title" fields = some (.str title))
    (hres : lookupField "resolutions" fields = some (.arr (rs.map JSValue.str))) :
    (fetchInfo engine s (.json (.obj fields))).1.statusText = "Title: " ++ title ∧
    (fetchInfo engine s (.json (.obj fields))).1.downloadDisabled = false := by
  rw [fetchInfo_of_url engine s _ hurl]
  simp [infoSettled, infoTrySettled, infoTry, getProp, herr, truthy, htitle, hres,
    templateText, JSValue.toStr, forEachResolution, populate_strings]

theorem fetchInfo_success_witness :
    (fetchInfo sampleEngine { freshPage with urlInput := "https://youtube.com/watch?v=abc" }
      (.json sampleInfo)).1.statusText = "Title: Sample" ∧
    (fetchInfo sampleEngine { freshPage with urlInput := "https://youtube.com/watch?v=abc" }
      (.json sampleInfo)).1.downloadDisabled = false :=
  fetchInfo_success sampleEngine { freshPage with urlInput := "https://youtube.com/watch?v=abc" }
    [("title", .str "Sample"), ("resolutions", .arr [.str "360", .str "720", .str "1080"])]
    "Sample" ["360", "720", "1080"] (by decide) rfl rfl rfl

/-- C3, refuted as stated: a metadata response that contains an `error` field
holding the empty string, next to a title and resolutions, leaves the download
button enabled, although it was disabled before the call. -/
theorem fetchInfo_empty_error_enables :
    lookupField "error"
      [("error", .str ""), ("title", .str "Sample"), ("resolutions", .arr [.str "360"])] =
        some (.str "") ∧
    trim ({ freshPage with urlInput := "https://youtube.com/watch?v=abc" } : Controller).urlInput
      ≠ "" ∧
    ({ freshPage with urlInput := "https://youtube.com/watch?v=abc" } : Controller).downloadDisabled
      = true ∧
    (fetchInfo sampleEngine { freshPage with urlInput := "https://youtube.com/watch?v=abc" }
      (.json (.obj [("error", .str ""), ("title", .str "Sample"),
        ("resolutions", .arr [.str "360"])]))).1.downloadDisabled = false :=
  ⟨rfl, by decide, rfl, by decide⟩

/-- C3, amended: with a URL in the field and a metadata response whose `error`
field holds a truthy value (any string but the empty one, any number but zero,
`true`, an array, an object), FetchInfo ends with the download button disabled,
whatever it was before. -/
theorem fetchInfo_error_disables (engine : TypeErrorSite → String) (s : Controller)
    (fields : List (String × JSValue)) (e : JSValue)
    (hurl : trim s.urlInput ≠ "")
    (herr : lookupField "error" fields = some e)
    (htruthy : truthy (some e) = true) :
    (fetchInfo engine s (.json (.obj fields))).1.downloadDisabled = true := by
  rw [fetchInfo_of_url engine s _ hurl]
  simp only [infoSettled, infoTrySettled, infoTry, getProp, herr, htruthy, if_true, errorMessage]
  cases e.toStr <;> simp [infoCatch]

theorem fetchInfo_error_disables_witness :
    (fetchInfo sampleEngine readyPage
      (.json (.obj [("error", .str "invalid url")]))).1.downloadDisabled = true :=
  fetchInfo_error_disables sampleEngine readyPage [("error", .str "invalid url")]
    (.str "invalid url") (by decide) rfl (by decide)

/-- C10: with a URL in the field and a metadata response whose `error` field is
a non-empty string `m`, FetchInfo sends its one request and changes the status
text (to `Error: ` followed by `m`) and the download flag (to disabled) and
nothing else: the options of the selector, and the selection, stay as they were. -/
theorem fetchInfo_error_frame (engine : TypeErrorSite → String) (s : Controller)
    (fields : List (String × JSValue)) (m : String)
    (hurl : trim s.urlInput ≠ "")
    (herr : lookupField "error" fields = some (.str m))
    (hm : m ≠ "") :
    fetchInfo engine s (.json (.obj fields)) =
      ({ s with statusText := "Error: " ++ m, downloadDisabled := true },
        [Effect.post (API_BASE ++ "/info") [("url", trim s.urlInput)]]) ∧
    (fetchInfo engine s (.json (.obj fields))).1.resolutionOptions = s.resolutionOptions := by
  rw [fetchInfo_of_url engine s _ hurl]
  simp [infoSettled, infoTrySettled, infoTry, getProp, herr, truthy, hm, errorMessage,
    JSValue.toStr, infoCatch, Thrown.message]

theorem fetchInfo_error_frame_witness :
    (fetchInfo sampleEngine readyPage (.json (.obj [("error", .str "invalid url")]))).1 =
      { readyPage with statusText := "Error: invalid url", downloadDisabled := true } ∧
    (fetchInfo sampleEngine readyPage
      (.json (.obj [("error", .str "invalid url")]))).1.resolutionOptions =
      [⟨"144", "144p"⟩, ⟨"240", "240p"⟩] :=
  ⟨congrArg Prod.fst (fetchInfo_error_frame sampleEngine readyPage
      [("error", .str "invalid url")] "invalid url" (by decide) rfl (by decide)).1,
   (fetchInfo_error_frame sampleEngine readyPage
      [("error", .str "invalid url")] "invalid url" (by decide) rfl (by decide)).2⟩

/-- C5: for every download response with a non-success status, whatever its
status code and body, the status text after Download is the one fixed message
`Error: Download failed`, and no file is handed to the browser: the only effect
is the request itself. -/
theorem download_http_failure (engine : TypeErrorSite → String) (s : Controller)
    (r : DownloadResponse) (h : r.ok = false) :
    (download engine s (.response r)).1.statusText = "Error: Download failed" ∧
    (download engine s (.response r)).2 =
      [Effect.post (API_BASE ++ "/download")
        [("url", trim s.urlInput), ("mode", s.modeSelect), ("height", s.resolutionValue)]] ∧
    ∀ name content, Effect.save name content ∉ (download engine s (.response r)).2 := by
  simp [download, downloadClick, downloadSettled, downloadTrySettled, h, downloadCatch,
    Thrown.message]

theorem download_http_failure_witness :
    (⟨404, .ok [1, 2, 3]⟩ : DownloadResponse).ok = false ∧
    (download sampleEngine readyPage (.response ⟨404, .ok [1, 2, 3]⟩)).1.statusText =
      "Error: Download failed" ∧
    (download sampleEngine readyPage (.response ⟨500, .error "aborted"⟩)).1.statusText =
      "Error: Download failed" :=
  ⟨by decide,
   (download_http_failure sampleEngine readyPage ⟨404, .ok [1, 2, 3]⟩ (by decide)).1,
   (download_http_failure sampleEngine readyPage ⟨500, .error "aborted"⟩ (by decide)).1⟩

/-- C7: for every download response with a success status whose body reads as
the bytes `b`, Download hands exactly one file to the browser, with content
exactly `b` and the file name `video`, whatever the URL, the mode and the
selected height: its effects are the request, then that one save. -/
theorem download_saves_body (engine : TypeErrorSite → String) (s : Controller)
    (r : DownloadResponse) (b : Bytes) (hok : r.ok = true) (hbody : r.blob = .ok b) :
    (download engine s (.response r)).2 =
      [Effect.post (API_BASE ++ "/download")
        [("url", trim s.urlInput), ("mode", s.modeSelect), ("height", s.resolutionValue)],
       Effect.save "video" b] := by
  simp [download, downloadClick, downloadSettled, downloadTrySettled, hok, hbody]

theorem download_saves_body_witness :
    (download sampleEngine readyPage (.response ⟨200, .ok [0, 255, 7]⟩)).2 =
      [Effect.post "https://your-backend.onrender.com/download"
        [("url", "https://youtube.com/watch?v=abc"), ("mode", "resolution"), ("height", "240")],
       Effect.save "video" [0, 255, 7]] :=
  download_saves_body sampleEngine readyPage ⟨200, .ok [0, 255, 7]⟩ [0, 255, 7]
    (by decide) rfl

/-- C9, refuted as stated: after a transport failure with the message
`Failed to fetch` the status text is not that message. -/
theorem download_status_is_not_message :
    (download sampleEngine readyPage (.fetchRejected "Failed to fetch")).1.statusText ≠
      "Failed to fetch" ∧
    (download sampleEngine readyPage (.fetchRejected "Failed to fetch")).1.statusText =
      "Error: Failed to fetch" := by
  decide

/-- C9, amended: when the download request fails for a reason other than a
non-success status (the transport fails, or reading the body of a successful
response fails) with the message `m`, the final status text is `Error: `
followed by `m`. -/
theorem download_failure_message (engine : TypeErrorSite → String) (s : Controller)
    (o : DownloadOutcome) (m : String)
    (h : o = .fetchRejected m ∨
      ∃ r : DownloadResponse, o = .response r ∧ r.ok = true ∧ r.blob = .error m) :
    (download engine s o).1.statusText = "Error: " ++ m := by
  rcases h with h | ⟨r, h, hok, hbody⟩
  · subst h
    simp [download, downloadClick, downloadSettled, downloadTrySettled, downloadCatch,
      Thrown.message]
  · subst h
    simp [download, downloadClick, downloadSettled, downloadTrySettled, downloadCatch,
      Thrown.message, hok, hbody]

theorem download_failure_message_witness :
    (download sampleEngine readyPage (.fetchRejected "Failed to fetch")).1.statusText =
      "Error: Failed to fetch" ∧
    (download sampleEngine readyPage
      (.response ⟨200, .error "network error"⟩)).1.statusText = "Error: network error" :=
  ⟨download_failure_message sampleEngine readyPage _ "Failed to fetch" (Or.inl rfl),
   download_failure_message sampleEngine readyPage _ "network error"
     (Or.inr ⟨⟨200, .error "network error"⟩, rfl, by decide, rfl⟩)⟩

/-- C6: FetchInfo is idempotent on what it shows. From every page, with every
text in the URL field and every way the request can settle (a rejected request,
an unreadable body, any parsed body), running FetchInfo a second time on the
same outcome leaves the same options in the selector and the same status text
as running it once. -/
theorem fetchInfo_idempotent (engine : TypeErrorSite → String) (s : Controller)
    (o : InfoOutcome) :
    (fetchInfo engine (fetchInfo engine s o).1 o).1.resolutionOptions =
      (fetchInfo engine s o).1.resolutionOptions ∧
    (fetchInfo engine (fetchInfo engine s o).1 o).1.statusText =
      (fetchInfo engine s o).1.statusText := by
  by_cases hurl : trim s.urlInput = ""
  · have h1 : fetchInfo engine s o = (s, [Effect.alert "Please enter a YouTube URL"]) := by
      simp [fetchInfo, fetchClick, hurl]
    simp [h1]
  · have h1 := fetchInfo_of_url engine s o hurl
    obtain ⟨_, _, hu⟩ := infoSettled_frame engine o
      { s with statusText := "Fetching video info..." }
      { s with statusText := "Fetching video info..." }
    have hurl' : trim (infoSettled engine
        { s with statusText := "Fetching video info..." } o).urlInput ≠ "" := by
      rw [hu]; exact hurl
    rw [h1]
    rw [fetchInfo_of_url engine _ o hurl']
    obtain ⟨hs, ho, _⟩ := infoSettled_frame engine o
      { (infoSettled engine { s with statusText := "Fetching video info..." } o) with
          statusText := "Fetching video info..." }
      { s with statusText := "Fetching video info..." }
    refine ⟨?_, hs⟩
    rcases ho with ⟨ha, hb⟩ | hc
    · rw [ha]
    · exact hc

/-- C4, refuted as stated: the script alone does not gate the download. On a
page whose download button is enabled at load, the button is enabled although
no FetchInfo has completed, and a click sends the download request; and the
download handler tests nothing itself, so a click delivered to it while the
button is disabled sends the request as well. In both sessions the stage
`downloadRequested` is entered with no `infoReady` before it. -/
theorem download_not_gated_by_script :
    ((Session.start { freshPage with downloadDisabled := false }).page.downloadDisabled = false ∧
      Stage.infoReady ∉ (Session.start { freshPage with downloadDisabled := false }).stages) ∧
    ((run sampleEngine (Session.start { freshPage with downloadDisabled := false })
        [.downloadClicked]).stages = [.downloadRequested] ∧
      (run sampleEngine (Session.start { freshPage with downloadDisabled := false })
        [.downloadClicked]).effects =
        [.post "https://your-backend.onrender.com/download"
          [("url", ""), ("mode", "resolution"), ("height", "")]]) ∧
    (freshPage.downloadDisabled = true ∧
      (run sampleEngine (Session.start freshPage) [.downloadClicked]).stages =
        [.downloadRequested] ∧
      (run sampleEngine (Session.start freshPage) [.downloadClicked]).effects =
        [.post "https://your-backend.onrender.com/download"
          [("url", ""), ("mode", "resolution"), ("height", "")]]) := by
  decide

/-- C4, amended: download gating. From a page loaded with the download button
disabled, after any sequence of events (typing, mode changes, option choices,
fetch-info clicks, download clicks, requests settling in any order) in which
every click on the download button arrives while the button is enabled: the
download button is enabled only if a FetchInfo has completed successfully
before; every start of a download (stage `downloadRequested`) has a
successfully completed FetchInfo (stage `infoReady`) earlier in the session;
and no download request has been sent unless a FetchInfo has completed
successfully. -/
theorem download_gated (engine : TypeErrorSite → String) (page : Controller)
    (events : List Event) (hload : page.downloadDisabled = true)
    (hclicks : clicksWhileEnabled engine (Session.start page) events = true) :
    ((run engine (Session.start page) events).page.downloadDisabled = false →
      Stage.infoReady ∈ (run engine (Session.start page) events).stages) ∧
    (∀ pre post,
      (run engine (Session.start page) events).stages =
        pre ++ Stage.downloadRequested :: post → Stage.infoReady ∈ pre) ∧
    (∀ body,
      Effect.post (API_BASE ++ "/download") body ∈
        (run engine (Session.start page) events).effects →
      Stage.infoReady ∈ (run engine (Session.start page) events).stages) := by
  refine run_gated engine events (Session.start page) ?_ hclicks
  refine ⟨fun h => ?_, fun pre post h => ?_, fun body h => ?_⟩
  · simp [Session.start, hload] at h
  · simp [Session.start] at h
  · simp [Session.start] at h

theorem download_gated_witness :
    freshPage.downloadDisabled = true ∧
    clicksWhileEnabled sampleEngine (Session.start freshPage) sampleEvents = true ∧
    (run sampleEngine (Session.start freshPage) sampleEvents).stages =
      [.infoRequested, .infoReady, .downloadRequested, .downloadComplete] ∧
    (run sampleEngine (Session.start freshPage) sampleEvents).effects =
      [.post "https://your-backend.onrender.com/info"
         [("url", "https://youtube.com/watch?v=abc")],
       .post "https://your-backend.onrender.com/download"
         [("url", "https://youtube.com/watch?v=abc"), ("mode", "resolution"), ("height", "720")],
       .save "video" [0, 255, 7]] ∧
    Stage.infoReady ∈ (run sampleEngine (Session.start freshPage) sampleEvents).stages :=
  ⟨rfl, by decide, by decide, by decide,
   (download_gated sampleEngine freshPage sampleEvents rfl (by decide)).1 (by decide)⟩

end YoutubeAV
